import Mathlib

/-!
Verification of the threat-vision enricher smartmodule
(src/smartmodule/enricher/src/lib.rs) against its specification.

Shallow embedding conventions:
* Rust `String` becomes Lean `String`; keyword search works on `List Char`
  (`String.data`), matching Rust's `str::contains` substring semantics.
* The keyword tables are `HashMap`s in the source; the spec (section 9)
  requires an explicitly ordered list of pairs, so they are embedded as
  association lists in the source's insertion order.
* `u64` arithmetic in the date parser is embedded as `Nat` with explicit
  wrapping modulo 2^64 (release-mode Rust semantics); `u8`/`u128` fields
  become `Nat`; `i32` sums become `Int`.
* Fallible parsing returns `Except String Nat` mirroring the source's
  `Result<SystemTime, _>`; a parsed `SystemTime` is represented by its
  seconds-since-epoch value.
-/

/-- Case fold used on the aggregated text (Rust `to_lowercase`; ASCII range,
which covers every table keyword). -/
def lowerCh (cs : List Char) : List Char := cs.map Char.toLower

/-- Decides whether `needle` begins the list `hay` (character-wise). -/
def isPrefCh : List Char → List Char → Bool
  | [], _ => true
  | _ :: _, [] => false
  | a :: as, b :: bs => a == b && isPrefCh as bs

/-- Substring containment on character lists, the semantics of Rust
`str::contains(&str)`.  An empty needle is contained in every haystack. -/
def containsSub : (hay needle : List Char) → Bool
  | [], needle => needle.isEmpty
  | c :: t, needle => isPrefCh needle (c :: t) || containsSub t needle

/-- Text aggregation used by every classifier: join the selected fields with
single spaces, then lower-case the result (source: `all_text.join(" ").to_lowercase()`). -/
def aggText (parts : List String) : List Char :=
  lowerCh (String.intercalate " " parts).data

/-- Delimiter set of the date parser (source: `split(['T', '-', ':', '.'])`). -/
def isDelim (c : Char) : Bool := c == 'T' || c == '-' || c == ':' || c == '.'

/-- Splits a character list at every delimiter, keeping empty segments,
exactly like Rust's `str::split` with a char slice. -/
def splitChars : List Char → List (List Char)
  | [] => [[]]
  | c :: t =>
    if isDelim c then [] :: splitChars t
    else
      match splitChars t with
      | [] => [[c]]
      | h :: r => (c :: h) :: r

/-- String-level wrapper for `splitChars`. -/
def splitDelims (s : String) : List String :=
  (splitChars s.data).map String.mk

/-- Digits of a numeric segment after the optional leading `+` sign that
Rust's unsigned `FromStr` accepts. -/
def segChars (s : String) : List Char :=
  match s.data with
  | '+' :: t => t
  | cs => cs

/-- Numeric value of a list of ASCII digits. -/
def digitVal (cs : List Char) : Nat :=
  cs.foldl (fun a c => a * 10 + (c.toNat - 48)) 0

/-- Parse of one segment as a `u64` (Rust `str::parse::<u64>()`): an optional
leading `+`, then one or more ASCII digits, value below 2^64. -/
def parseU64 (s : String) : Option Nat :=
  if (segChars s).isEmpty then none
  else if (segChars s).all Char.isDigit then
    if digitVal (segChars s) < 18446744073709551616 then some (digitVal (segChars s))
    else none
  else none

/-- Modulus of `u64` arithmetic. -/
def U64M : Nat := 18446744073709551616

/-- Wrapping `u64` addition. -/
def wadd (a b : Nat) : Nat := (a + b) % U64M

/-- Wrapping `u64` multiplication. -/
def wmul (a b : Nat) : Nat := a * b % U64M

/-- Wrapping `u64` subtraction. -/
def wsub (a b : Nat) : Nat := (a + U64M - b) % U64M

/-- Seconds-since-epoch computation of `parse_iso8601` under `u64` wrapping
semantics: `(year-1970)*31536000 + (month-1)*2592000 + (day-1)*86400 +
hour*3600 + minute*60 + second`. -/
def instantSecs (year month day hour minute second : Nat) : Nat :=
  wadd (wadd (wadd (wadd (wadd (wmul (wsub year 1970) 31536000)
    (wmul (wsub month 1) 2592000)) (wmul (wsub day 1) 86400))
    (wmul hour 3600)) (wmul minute 60)) second

/-- Classification basis enums (source `Urgency`). -/
inductive Urgency
  | Hot
  | Cold
  | Critical
  | Medium
  | Low
deriving DecidableEq, Repr

/-- Source `AttackType`. -/
inductive AttackType
  | Ransomware
  | Malware
  | Ddos
  | Botnet
  | Phishing
  | Trojan
  | Spyware
  | BruteForce
  | SQLInjection
  | Unknown
deriving DecidableEq, Repr

/-- Source `Target`. -/
inductive Target
  | WebApp
  | Infrastructure
  | ApiAbuse
  | IotDevices
  | UserFocused
  | EmailAttack
  | Unknown
deriving DecidableEq, Repr

/-- Source `AttackVector`. -/
inductive AttackVector
  | Email
  | WebApplication
  | Network
  | CloudService
  | SupplyChain
  | Unknown
deriving DecidableEq, Repr

/-- Source `OTXIndicator`; `id` is `u128` and `is_active` is `u8`, both
embedded as `Nat`. -/
structure OTXIndicator where
  id : Nat
  indicator : String
  type_ : String
  created : String
  content : String
  title : String
  description : String
  expiration : Option String
  is_active : Nat
  role : Option String

/-- Source `OTXRecord`. -/
structure OTXRecord where
  id : String
  name : String
  description : String
  author_name : String
  modified : String
  created : String
  revision : Nat
  tlp : String
  public : Nat
  adversary : String
  indicators : List OTXIndicator
  tags : List String
  targeted_countries : List String
  malware_families : List String
  attack_ids : List String
  references : List String
  industries : List String
  extract_source : List String
  more_indicators : Bool

/-- Source `EnrichedThreatRecord`. -/
structure EnrichedThreatRecord where
  attack_types : List AttackType
  attack_vectors : List AttackVector
  urgency : Urgency × Urgency
  targets : List Target
  locations : List String
  expiration_date : String

/-- Source `attack_type_keywords`, as an association list in the source's
insertion order (the source uses a `HashMap`; spec section 9 fixes the order). -/
def attack_type_keywords : List (String × AttackType) :=
  [("ransom", .Ransomware), ("ransomware", .Ransomware), ("locker", .Ransomware),
   ("cryptolocker", .Ransomware), ("encryptor", .Ransomware), ("crypto-malware", .Ransomware),
   ("malware", .Malware), ("virus", .Malware), ("worm", .Malware),
   ("adware", .Malware), ("rootkit", .Malware), ("keylogger", .Malware),
   ("ddos", .Ddos), ("dos", .Ddos), ("denial of service", .Ddos),
   ("distributed denial of service", .Ddos), ("flood attack", .Ddos),
   ("syn flood", .Ddos), ("amplification attack", .Ddos),
   ("botnet", .Botnet), ("bot network", .Botnet), ("zombie network", .Botnet),
   ("c&c", .Botnet), ("command and control", .Botnet),
   ("phish", .Phishing), ("phishing", .Phishing), ("spearphish", .Phishing),
   ("spear-phishing", .Phishing), ("whaling", .Phishing),
   ("credential harvesting", .Phishing), ("email scam", .Phishing),
   ("smishing", .Phishing), ("vishing", .Phishing),
   ("trojan", .Trojan), ("trojan horse", .Trojan), ("dropper", .Trojan),
   ("backdoor", .Trojan), ("infostealer", .Trojan),
   ("spyware", .Spyware), ("snoopware", .Spyware), ("tracking software", .Spyware),
   ("monitoring tool", .Spyware),
   ("brute force", .BruteForce), ("bruteforce", .BruteForce),
   ("credential stuffing", .BruteForce), ("password cracking", .BruteForce),
   ("dictionary attack", .BruteForce),
   ("sql injection", .SQLInjection), ("sqli", .SQLInjection),
   ("injection attack", .SQLInjection), ("database injection", .SQLInjection),
   ("blind sql", .SQLInjection), ("error-based injection", .SQLInjection),
   ("union-based injection", .SQLInjection)]

/-- Source `attack_vector_keywords` in insertion order. -/
def attack_vector_keywords : List (String × AttackVector) :=
  [("email", .Email), ("phishing", .Email), ("spearphish", .Email), ("spoofing", .Email),
   ("web", .WebApplication), ("xss", .WebApplication),
   ("cross-site scripting", .WebApplication), ("sql injection", .WebApplication),
   ("sqli", .WebApplication), ("csrf", .WebApplication),
   ("directory traversal", .WebApplication),
   ("network", .Network), ("ddos", .Network), ("denial of service", .Network),
   ("port scan", .Network), ("mitm", .Network), ("man in the middle", .Network),
   ("cloud", .CloudService), ("aws", .CloudService), ("gcp", .CloudService),
   ("azure", .CloudService), ("bucket", .CloudService), ("s3", .CloudService),
   ("misconfig", .CloudService), ("storage exposure", .CloudService),
   ("supply chain", .SupplyChain), ("dependency confusion", .SupplyChain),
   ("software supply chain", .SupplyChain), ("package hijack", .SupplyChain),
   ("vendor compromise", .SupplyChain)]

/-- Source `urgency_keywords` in insertion order. -/
def urgency_keywords : List (String × Urgency) :=
  [("hot", .Hot), ("immediate", .Hot), ("active", .Hot), ("ongoing", .Hot),
   ("breaking", .Hot),
   ("cold", .Cold), ("stale", .Cold), ("archived", .Cold), ("historical", .Cold),
   ("retired", .Cold), ("inactive", .Cold),
   ("critical", .Critical), ("high", .Critical), ("severe", .Critical),
   ("urgent", .Critical), ("emergency", .Critical),
   ("medium", .Medium), ("moderate", .Medium), ("average", .Medium),
   ("balanced", .Medium),
   ("low", .Low), ("minor", .Low), ("negligible", .Low), ("low priority", .Low),
   ("minimal", .Low)]

/-- Source `target_keywords` in insertion order. -/
def target_keywords : List (String × Target) :=
  [("webapp", .WebApp), ("web app", .WebApp), ("website", .WebApp),
   ("web application", .WebApp), ("web portal", .WebApp),
   ("online service", .WebApp), ("web service", .WebApp),
   ("infrastructure", .Infrastructure), ("server", .Infrastructure),
   ("servers", .Infrastructure), ("datacenter", .Infrastructure),
   ("data center", .Infrastructure), ("network infra", .Infrastructure),
   ("cloud infrastructure", .Infrastructure), ("system", .Infrastructure),
   ("backend", .Infrastructure),
   ("api abuse", .ApiAbuse), ("api exploitation", .ApiAbuse),
   ("api attack", .ApiAbuse), ("api misuse", .ApiAbuse), ("rest api", .ApiAbuse),
   ("graphql api", .ApiAbuse), ("api endpoint", .ApiAbuse),
   ("iot", .IotDevices), ("device", .IotDevices), ("smart devices", .IotDevices),
   ("smart home", .IotDevices), ("embedded systems", .IotDevices),
   ("industrial control systems", .IotDevices), ("ics", .IotDevices),
   ("plc", .IotDevices), ("smart tv", .IotDevices), ("iot network", .IotDevices),
   ("user", .UserFocused), ("users", .UserFocused), ("human", .UserFocused),
   ("human target", .UserFocused), ("social engineering", .UserFocused),
   ("account takeover", .UserFocused), ("identity theft", .UserFocused),
   ("credential theft", .UserFocused), ("login brute force", .UserFocused),
   ("phishing scam", .UserFocused),
   ("email", .EmailAttack), ("email attack", .EmailAttack),
   ("email phishing", .EmailAttack), ("email spoofing", .EmailAttack),
   ("spam email", .EmailAttack), ("malicious email", .EmailAttack),
   ("email fraud", .EmailAttack), ("spearphishing", .EmailAttack),
   ("mail scam", .EmailAttack), ("mail fraud", .EmailAttack)]

/-- Append a category unless already present (source: the guarded
`a_types.push(*a_type)` pattern). -/
def insertAbsent {α : Type} [DecidableEq α] (acc : List α) (c : α) : List α :=
  if c ∈ acc then acc else acc ++ [c]

/-- Keyword-matching fold shared by the three set-valued classifiers. -/
def classFold {α : Type} [DecidableEq α] (text : List Char)
    (tbl : List (String × α)) : List α :=
  tbl.foldl (fun acc p => if containsSub text p.1.data then insertAbsent acc p.2 else acc) []

/-- Set-valued classification with the `Unknown` fallback (source: the shared
shape of `classify_attack_types`, `classify_attack_vectors`, `classify_targets`). -/
def classifyList {α : Type} [DecidableEq α] (tbl : List (String × α))
    (text : List Char) (unk : α) : List α :=
  let cats := classFold text tbl
  if cats = [] then [unk] else cats

/-- Aggregated text of `classify_attack_types`: name, description, tags, then
per indicator title, description, role (empty when absent). -/
def attackTypeText (r : OTXRecord) : List Char :=
  aggText ([r.name, r.description] ++ r.tags ++
    (r.indicators.map (fun i => [i.title, i.description, i.role.getD ""])).flatten)

/-- Aggregated text of `classify_attack_vectors`: as above but without role. -/
def attackVectorText (r : OTXRecord) : List Char :=
  aggText ([r.name, r.description] ++ r.tags ++
    (r.indicators.map (fun i => [i.title, i.description])).flatten)

/-- Aggregated text of `classify_targets`: name, description, tags, then per
indicator title and description. -/
def targetText (r : OTXRecord) : List Char :=
  aggText ([r.name, r.description] ++ r.tags ++
    (r.indicators.map (fun i => [i.title, i.description])).flatten)

/-- Aggregated text of `classify_urgency`: name, description, tags only. -/
def urgencyText (r : OTXRecord) : List Char :=
  aggText ([r.name, r.description] ++ r.tags)

/-- Source `classify_attack_types`. -/
def classify_attack_types (r : OTXRecord) : List AttackType :=
  classifyList attack_type_keywords (attackTypeText r) AttackType.Unknown

/-- Source `classify_attack_vectors`. -/
def classify_attack_vectors (r : OTXRecord) : List AttackVector :=
  classifyList attack_vector_keywords (attackVectorText r) AttackVector.Unknown

/-- Source `classify_targets`. -/
def classify_targets (r : OTXRecord) : List Target :=
  classifyList target_keywords (targetText r) Target.Unknown

/-- Activity sum of `classify_urgency` (`tipper` in the source): +1 per
indicator with `is_active == 1`, -1 otherwise, as an `i32` sum. -/
def tipper (r : OTXRecord) : Int :=
  (r.indicators.map (fun ind => if ind.is_active = 1 then (1 : Int) else -1)).sum

/-- One step of the severity scan of `classify_urgency`: a matching keyword
overwrites the running severity only when it maps to Critical, Medium or Low. -/
def sevStep (text : List Char) (acc : Urgency) (p : String × Urgency) : Urgency :=
  if containsSub text p.1.data then
    match p.2 with
    | Urgency.Critical => p.2
    | Urgency.Medium => p.2
    | Urgency.Low => p.2
    | _ => acc
  else acc

/-- Source `classify_urgency`: activity tier from the indicator sum, severity
tier from scanning the urgency table against name+description+tags. -/
def classify_urgency (r : OTXRecord) : Urgency × Urgency :=
  let flattened := urgencyText r
  let sev := urgency_keywords.foldl (sevStep flattened) Urgency.Low
  (if 0 < tipper r then Urgency.Hot else Urgency.Cold, sev)

/-- Source `parse_iso8601`: split on the delimiters, require at least six
segments, parse the first six as `u64`, combine with the fixed-unit
calendar arithmetic. -/
def parse_iso8601 (date_str : String) : Except String Nat :=
  let parts := splitDelims date_str
  if parts.length < 6 then Except.error "Invalid date format"
  else
    match parseU64 (parts.getD 0 "") with
    | none => Except.error "Failed to parse year"
    | some year =>
      match parseU64 (parts.getD 1 "") with
      | none => Except.error "Failed to parse month"
      | some month =>
        match parseU64 (parts.getD 2 "") with
        | none => Except.error "Failed to parse day"
        | some day =>
          match parseU64 (parts.getD 3 "") with
          | none => Except.error "Failed to parse hour"
          | some hour =>
            match parseU64 (parts.getD 4 "") with
            | none => Except.error "Failed to parse minute"
            | some minute =>
              match parseU64 (parts.getD 5 "") with
              | none => Except.error "Failed to parse second"
              | some second =>
                Except.ok (instantSecs year month day hour minute second)

/-- Year field of `format_system_time`. -/
def fmtYear (seconds : Nat) : Nat := 1970 + seconds / 31536000

/-- Month field of `format_system_time` (from the within-year remainder). -/
def fmtMonth (seconds : Nat) : Nat := seconds % 31536000 / 2592000 + 1

/-- Day field of `format_system_time` (note: from `seconds % 2592000`, not
from the within-year remainder). -/
def fmtDay (seconds : Nat) : Nat := seconds % 2592000 / 86400 + 1

/-- Hour field of `format_system_time`. -/
def fmtHour (seconds : Nat) : Nat := seconds % 86400 / 3600

/-- Minute field of `format_system_time`. -/
def fmtMinute (seconds : Nat) : Nat := seconds % 3600 / 60

/-- Second field of `format_system_time`. -/
def fmtSecond (seconds : Nat) : Nat := seconds % 60

/-- Zero padding of a rendered number to a fixed width (Rust `{:04}`/`{:02}`):
all digits are kept when the number is wider than the field. -/
def padZeros (w n : Nat) : List Char :=
  let ds := (Nat.repr n).data
  List.replicate (w - ds.length) '0' ++ ds

/-- Source `format_system_time`: recover the six fields with the fixed-unit
arithmetic and render `YYYY-MM-DDTHH:MM:SS`. -/
def format_system_time (t : Nat) : String :=
  String.mk (padZeros 4 (fmtYear t) ++ ('-' :: (padZeros 2 (fmtMonth t) ++
    ('-' :: (padZeros 2 (fmtDay t) ++ ('T' :: (padZeros 2 (fmtHour t) ++
    (':' :: (padZeros 2 (fmtMinute t) ++ (':' :: padZeros 2 (fmtSecond t)))))))))))

/-- Source `get_expiration`: fold over the indicators keeping the maximum
parsed expiration instant, then format it; absent or unparseable expirations
are skipped. -/
def get_expiration (record : OTXRecord) : Option String :=
  let t_exp_date := record.indicators.foldl
    (fun acc ind =>
      match ind.expiration with
      | some expiration_str =>
        match parse_iso8601 expiration_str with
        | Except.ok expiration_date =>
          match acc with
          | none => some expiration_date
          | some cur => if cur < expiration_date then some expiration_date else acc
        | Except.error _ => acc
      | none => acc)
    none
  t_exp_date.map format_system_time

/-- Per-record body of the `array_map` loop, assembling one
`EnrichedThreatRecord`. -/
def enrich (result : OTXRecord) : EnrichedThreatRecord :=
  ⟨classify_attack_types result,
   classify_attack_vectors result,
   classify_urgency result,
   classify_targets result,
   (if result.targeted_countries.isEmpty then ["Unknown"] else result.targeted_countries),
   (get_expiration result).getD ""⟩

/-- Table entries whose keyword occurs in the text (spec wording: the matched
(keyword, category) pairs, in table order). -/
def hits {α : Type} (tbl : List (String × α)) (text : List Char) :
    List (String × α) :=
  tbl.filter (fun p => containsSub text p.1.data)

/-- Spec-side description of the classifier result: the ordered-unique
sequence of matched categories, first-seen order. -/
def firstDedup {α : Type} [DecidableEq α] (l : List α) : List α :=
  l.foldl insertAbsent []

/-- Severity-relevant urgency categories (Critical, Medium, Low). -/
def isSev : Urgency → Bool
  | Urgency.Critical => true
  | Urgency.Medium => true
  | Urgency.Low => true
  | _ => false

/-- Expiration instant of one indicator, when present and parseable. -/
def extractExp (ind : OTXIndicator) : Option Nat :=
  match ind.expiration with
  | none => none
  | some s =>
    match parse_iso8601 s with
    | Except.ok v => some v
    | Except.error _ => none

/-- Expiration instants of a record's indicators that are present and parse
successfully, in indicator order. -/
def parsedExpirations (r : OTXRecord) : List Nat :=
  r.indicators.filterMap extractExp

/-- Maximum-tracking step of `get_expiration`: replace the running value when
absent or strictly exceeded. -/
def stepMax (acc : Option Nat) (d : Nat) : Option Nat :=
  match acc with
  | none => some d
  | some cur => if cur < d then some d else acc

/-- Maximum parsed expiration instant of a record (0 when none exist). -/
def maxExpiration (r : OTXRecord) : Nat :=
  (parsedExpirations r).foldl Nat.max 0

/-- Record constructor for concrete test inputs: every field the classifiers
do not read is left at a neutral value. -/
def mkRecord (name description : String) (tags : List String)
    (inds : List OTXIndicator) : OTXRecord :=
  ⟨"", name, description, "", "", "", 0, "", 0, "", inds, tags,
   [], [], [], [], [], [], false⟩

/-- Indicator constructor for concrete test inputs. -/
def mkIndicator (active : Nat) (exp : Option String) : OTXIndicator :=
  ⟨0, "", "", "", "", "", "", exp, active, none⟩

/-- Scenario record of spec property 7 (claim C1). -/
def c1Record : OTXRecord :=
  mkRecord "" "Ransomware attack via phishing email targeting users" [] []

/-- Record with three indicators of active flags 1, 1, 0 (spec property 9). -/
def rec110 : OTXRecord :=
  mkRecord "" "" [] [mkIndicator 1 none, mkIndicator 1 none, mkIndicator 0 none]

/-- Record with indicator active flags 2 and 255 (claim C9). -/
def recOddActive : OTXRecord :=
  mkRecord "" "" [] [mkIndicator 2 none, mkIndicator 255 none]

/-- Record with no text and no indicators. -/
def emptyRecord : OTXRecord := mkRecord "" "" [] []

/-- Record with a mix of parseable, absent and unparseable expirations. -/
def expRecord : OTXRecord :=
  mkRecord "" "" []
    [mkIndicator 1 (some "2023-01-01T00:00:00"),
     mkIndicator 0 (some "2023-06-01T00:00:00"),
     mkIndicator 0 none,
     mkIndicator 0 (some "not-a-date")]

/-! Lemmas about the ordered-unique insertion fold shared by the classifiers. -/

/-- Membership after one guarded insertion. -/
lemma insertAbsent_mem {α : Type} [DecidableEq α] (acc : List α) (c x : α) :
    x ∈ insertAbsent acc c ↔ x ∈ acc ∨ x = c := by
  unfold insertAbsent
  by_cases h : c ∈ acc
  · simp only [if_pos h]
    constructor
    · exact Or.inl
    · rintro (hx | rfl)
      · exact hx
      · exact h
  · simp [if_neg h]

/-- Membership in the insertion fold. -/
lemma foldl_insertAbsent_mem {α : Type} [DecidableEq α] (l : List α) :
    ∀ (acc : List α) (x : α), x ∈ l.foldl insertAbsent acc ↔ x ∈ acc ∨ x ∈ l := by
  induction l with
  | nil => intro acc x; simp
  | cons a t ih =>
    intro acc x
    rw [List.foldl_cons, ih, insertAbsent_mem, List.mem_cons]
    tauto

/-- One guarded insertion preserves freedom from duplicates. -/
lemma insertAbsent_nodup {α : Type} [DecidableEq α] (acc : List α) (c : α)
    (h : acc.Nodup) : (insertAbsent acc c).Nodup := by
  unfold insertAbsent
  by_cases hc : c ∈ acc
  · simpa [if_pos hc]
  · simp [if_neg hc, List.nodup_append, h, hc]

/-- The insertion fold preserves freedom from duplicates. -/
lemma foldl_insertAbsent_nodup {α : Type} [DecidableEq α] (l : List α) :
    ∀ acc : List α, acc.Nodup → (l.foldl insertAbsent acc).Nodup := by
  induction l with
  | nil => intro acc h; simpa
  | cons a t ih => intro acc h; exact ih _ (insertAbsent_nodup acc a h)

/-- The insertion fold is empty only for empty inputs. -/
lemma foldl_insertAbsent_eq_nil {α : Type} [DecidableEq α] (l acc : List α) :
    l.foldl insertAbsent acc = [] ↔ acc = [] ∧ l = [] := by
  constructor
  · intro h
    constructor
    · refine List.eq_nil_iff_forall_not_mem.mpr (fun x hx => ?_)
      have := (foldl_insertAbsent_mem l acc x).mpr (Or.inl hx)
      simp [h] at this
    · refine List.eq_nil_iff_forall_not_mem.mpr (fun x hx => ?_)
      have := (foldl_insertAbsent_mem l acc x).mpr (Or.inr hx)
      simp [h] at this
  · rintro ⟨rfl, rfl⟩
    rfl

/-- The classifier fold over the table equals the insertion fold over the
matched categories. -/
lemma classFold_foldl {α : Type} [DecidableEq α] (text : List Char)
    (tbl : List (String × α)) :
    ∀ acc : List α,
      tbl.foldl (fun acc p => if containsSub text p.1.data then insertAbsent acc p.2 else acc) acc
        = ((hits tbl text).map Prod.snd).foldl insertAbsent acc := by
  induction tbl with
  | nil => intro acc; rfl
  | cons p t ih =>
    intro acc
    by_cases h : containsSub text p.1.data
    · simp [hits, List.filter_cons, h, ih, List.foldl_cons]
    · simp [hits, List.filter_cons, h, ih]

/-- The classifier fold equals the spec-side ordered-unique sequence of
matched categories. -/
lemma classFold_eq {α : Type} [DecidableEq α] (text : List Char)
    (tbl : List (String × α)) :
    classFold text tbl = firstDedup ((hits tbl text).map Prod.snd) := by
  unfold classFold firstDedup
  exact classFold_foldl text tbl []

/-- Full behavioural characterisation of `classifyList`: non-empty,
duplicate-free, the `unk` sentinel appears exactly when no keyword matched,
in which case the result is exactly `[unk]`, and otherwise the result is the
ordered-unique sequence of matched categories. -/
lemma classifyList_spec {α : Type} [DecidableEq α] (tbl : List (String × α))
    (text : List Char) (unk : α) (hunk : ∀ p ∈ tbl, ¬ p.2 = unk) :
    classifyList tbl text unk ≠ [] ∧
    (classifyList tbl text unk).Nodup ∧
    (unk ∈ classifyList tbl text unk ↔ hits tbl text = []) ∧
    (hits tbl text = [] → classifyList tbl text unk = [unk]) ∧
    (hits tbl text ≠ [] →
      classifyList tbl text unk = firstDedup ((hits tbl text).map Prod.snd)) := by
  have hfold := classFold_eq text tbl
  by_cases h : hits tbl text = []
  · have hnil : classFold text tbl = [] := by
      rw [hfold, h]
      rfl
    have hres : classifyList tbl text unk = [unk] := by
      unfold classifyList
      simp [hnil]
    refine ⟨by simp [hres], by simp [hres], by simp [hres, h], fun _ => hres, fun hc => absurd h hc⟩
  · have hmapne : (hits tbl text).map Prod.snd ≠ [] := by
      simpa using h
    have hne : classFold text tbl ≠ [] := by
      rw [hfold]
      unfold firstDedup
      rw [Ne, foldl_insertAbsent_eq_nil]
      tauto
    have hres : classifyList tbl text unk = firstDedup ((hits tbl text).map Prod.snd) := by
      unfold classifyList
      simp only [if_neg hne]
      exact hfold
    have hnotin : ¬ unk ∈ (hits tbl text).map Prod.snd := by
      intro hm
      rcases List.mem_map.mp hm with ⟨p, hp, hpe⟩
      exact hunk p (List.mem_of_mem_filter hp) hpe
    refine ⟨by rw [hres]; unfold firstDedup; rw [Ne, foldl_insertAbsent_eq_nil]; tauto,
      by rw [hres]; exact foldl_insertAbsent_nodup _ _ List.nodup_nil, ?_, fun hc => absurd hc h,
      fun _ => hres⟩
    rw [hres]
    unfold firstDedup
    rw [foldl_insertAbsent_mem]
    simp [hnotin, h]

/-- Claim C4: for every record, each of attack_types, attack_vectors and
targets is a non-empty duplicate-free sequence of matched categories in
first-match order over its table's iteration order, and it contains Unknown
exactly when no keyword of its table occurs in its aggregated text, in which
case it is exactly the singleton Unknown. -/
theorem c4_classification_invariants : ∀ r : OTXRecord,
    (classify_attack_types r ≠ [] ∧ (classify_attack_types r).Nodup ∧
      (AttackType.Unknown ∈ classify_attack_types r ↔
        hits attack_type_keywords (attackTypeText r) = []) ∧
      (hits attack_type_keywords (attackTypeText r) = [] →
        classify_attack_types r = [AttackType.Unknown]) ∧
      (hits attack_type_keywords (attackTypeText r) ≠ [] →
        classify_attack_types r =
          firstDedup ((hits attack_type_keywords (attackTypeText r)).map Prod.snd))) ∧
    (classify_attack_vectors r ≠ [] ∧ (classify_attack_vectors r).Nodup ∧
      (AttackVector.Unknown ∈ classify_attack_vectors r ↔
        hits attack_vector_keywords (attackVectorText r) = []) ∧
      (hits attack_vector_keywords (attackVectorText r) = [] →
        classify_attack_vectors r = [AttackVector.Unknown]) ∧
      (hits attack_vector_keywords (attackVectorText r) ≠ [] →
        classify_attack_vectors r =
          firstDedup ((hits attack_vector_keywords (attackVectorText r)).map Prod.snd))) ∧
    (classify_targets r ≠ [] ∧ (classify_targets r).Nodup ∧
      (Target.Unknown ∈ classify_targets r ↔
        hits target_keywords (targetText r) = []) ∧
      (hits target_keywords (targetText r) = [] →
        classify_targets r = [Target.Unknown]) ∧
      (hits target_keywords (targetText r) ≠ [] →
        classify_targets r =
          firstDedup ((hits target_keywords (targetText r)).map Prod.snd))) := by
  intro r
  refine ⟨?_, ?_, ?_⟩
  · exact classifyList_spec attack_type_keywords (attackTypeText r) AttackType.Unknown (by decide)
  · exact classifyList_spec attack_vector_keywords (attackVectorText r) AttackVector.Unknown (by decide)
  · exact classifyList_spec target_keywords (targetText r) Target.Unknown (by decide)

/-- Witness for C4 at a concrete record with no keyword matches. -/
theorem c4_witness :
    classify_attack_types emptyRecord = [AttackType.Unknown] ∧
    classify_attack_vectors emptyRecord = [AttackVector.Unknown] ∧
    classify_targets emptyRecord = [Target.Unknown] := by
  obtain ⟨h1, h2, h3⟩ := c4_classification_invariants emptyRecord
  exact ⟨h1.2.2.2.1 (by decide), h2.2.2.2.1 (by decide), h3.2.2.2.1 (by decide)⟩

/-- One severity step written with the boolean guard. -/
lemma sevStep_eq (text : List Char) (acc : Urgency) (p : String × Urgency) :
    sevStep text acc p =
      if containsSub text p.1.data && isSev p.2 then p.2 else acc := by
  unfold sevStep isSev
  by_cases h : containsSub text p.1.data
  · cases hp : p.2 <;> simp [h, hp]
  · simp [h]

/-- The severity fold keeps the last matching severity keyword, in table
order, starting from the given default. -/
lemma foldl_sevStep_eq (text : List Char) (tbl : List (String × Urgency)) :
    ∀ a : Urgency, tbl.foldl (sevStep text) a =
      ((tbl.filter (fun p => containsSub text p.1.data && isSev p.2)).map Prod.snd).getLastD a := by
  induction tbl with
  | nil => intro a; rfl
  | cons p t ih =>
    intro a
    rw [List.foldl_cons, sevStep_eq]
    by_cases h : (containsSub text p.1.data && isSev p.2) = true
    · rw [if_pos h]
      simp only [List.filter_cons, h, if_true, List.map_cons, List.getLastD_cons]
      exact ih p.2
    · rw [if_neg h]
      rw [Bool.not_eq_true] at h
      simp only [List.filter_cons, h, if_false]
      exact ih a

/-- Claim C2: the severity component starts at Low and equals the category of
the last keyword in the fixed urgency-table order that occurs in the
lower-cased name+description+tags blob and maps to Critical, Medium or Low;
Hot- and Cold-mapped keywords never change it. -/
theorem c2_severity_last_match : ∀ r : OTXRecord,
    (classify_urgency r).2 =
      ((urgency_keywords.filter
          (fun p => containsSub (urgencyText r) p.1.data && isSev p.2)).map Prod.snd).getLastD
        Urgency.Low := by
  intro r
  have h := foldl_sevStep_eq (urgencyText r) urgency_keywords Urgency.Low
  simpa [classify_urgency] using h

/-- Claim C6: the activity component is Hot exactly when the indicator
activity sum is strictly positive and Cold otherwise; the scenario record
with active flags 1,1,0 is Hot, and a record without indicators is Cold. -/
theorem c6_activity_tier :
    (∀ r : OTXRecord,
      ((classify_urgency r).1 = Urgency.Hot ↔ 0 < tipper r) ∧
      ((classify_urgency r).1 = Urgency.Cold ↔ ¬ 0 < tipper r)) ∧
    (classify_urgency rec110).1 = Urgency.Hot ∧
    (classify_urgency emptyRecord).1 = Urgency.Cold := by
  refine ⟨fun r => ?_, by decide, by decide⟩
  unfold classify_urgency
  by_cases h : 0 < tipper r
  · simp [h]
  · simp [h]

/-- Counts characterisation of one step of the activity sum. -/
lemma tipper_count (l : List OTXIndicator) :
    (l.map (fun ind => if ind.is_active = 1 then (1 : Int) else -1)).sum =
      (l.countP (fun i => i.is_active == 1) : Int) -
      (l.countP (fun i => ! (i.is_active == 1)) : Int) := by
  induction l with
  | nil => simp
  | cons a t ih =>
    rw [List.map_cons, List.sum_cons, ih, List.countP_cons, List.countP_cons]
    by_cases h : a.is_active = 1
    · simp [h]
      omega
    · have hb : (a.is_active == 1) = false := by simpa using h
      simp [h, hb]
      omega

/-- Claim C9: the activity sum counts +1 for indicators whose active flag is
exactly 1 and -1 for every other flag value; indicators with flags 2 and 255
both contribute -1. -/
theorem c9_active_flag_exact_one :
    (∀ r : OTXRecord, tipper r =
      (r.indicators.countP (fun i => i.is_active == 1) : Int) -
      (r.indicators.countP (fun i => ! (i.is_active == 1)) : Int)) ∧
    tipper recOddActive = -2 :=
  ⟨fun r => tipper_count r.indicators, by decide⟩

/-- Counterexample to claim C1: on the scenario record the attack-type
classifier does not return exactly the singleton Ransomware, because the
description also matches the phishing keywords. -/
theorem c1_counterexample :
    (enrich c1Record).attack_types ≠ [AttackType.Ransomware] := by decide

/-- Claim C1 as amended: the scenario record classifies to attack_types
[Ransomware, Phishing], attack_vectors [Email], targets containing
UserFocused and EmailAttack, and urgency (Cold, Low). -/
theorem c1_amended_scenario :
    (enrich c1Record).attack_types = [AttackType.Ransomware, AttackType.Phishing] ∧
    (enrich c1Record).attack_vectors = [AttackVector.Email] ∧
    Target.UserFocused ∈ (enrich c1Record).targets ∧
    Target.EmailAttack ∈ (enrich c1Record).targets ∧
    (enrich c1Record).urgency = (Urgency.Cold, Urgency.Low) := by
  refine ⟨by decide, by decide, by decide, by decide, by decide⟩

/-- Claim C7: parsing the string 2024-06-15T10:30:00 succeeds with instant
1717151400, and formatting that instant returns the same string. -/
theorem c7_concrete_roundtrip :
    parse_iso8601 "2024-06-15T10:30:00" = Except.ok 1717151400 ∧
    format_system_time 1717151400 = "2024-06-15T10:30:00" :=
  ⟨rfl, rfl⟩

/-- Claim C10: the formatter's hour, minute and second fields are in range
and its day lies in 1..30, but the month field ranges up to 13 and equals 13
whenever the within-year offset is at least 360 days; at 31104000 seconds the
rendered string is 1970-13-01T00:00:00. -/
theorem c10_month_reaches_13 :
    (∀ t : Nat, fmtHour t < 24 ∧ fmtMinute t < 60 ∧ fmtSecond t < 60 ∧
      1 ≤ fmtDay t ∧ fmtDay t ≤ 30 ∧ 1 ≤ fmtMonth t ∧ fmtMonth t ≤ 13 ∧
      (31104000 ≤ t % 31536000 → fmtMonth t = 13)) ∧
    format_system_time 31104000 = "1970-13-01T00:00:00" := by
  constructor
  · intro t
    unfold fmtHour fmtMinute fmtSecond fmtDay fmtMonth
    refine ⟨by omega, by omega, by omega, by omega, by omega, by omega, by omega, ?_⟩
    intro h
    omega
  · rfl

/-- Witness for C10: the month-13 implication discharged at the concrete
instant 31104000. -/
theorem c10_witness : 31104000 ≤ 31104000 % 31536000 ∧ fmtMonth 31104000 = 13 :=
  ⟨by decide, ((c10_month_reaches_13.1 31104000).2.2.2.2.2.2.2) (by decide)⟩

/-! Lemmas about the expiration resolver. -/

/-- The indicator fold of `get_expiration` equals the `stepMax` fold over the
successfully parsed expirations. -/
lemma get_expiration_fold (l : List OTXIndicator) :
    ∀ acc : Option Nat,
      l.foldl
        (fun acc ind =>
          match ind.expiration with
          | some expiration_str =>
            match parse_iso8601 expiration_str with
            | Except.ok expiration_date =>
              match acc with
              | none => some expiration_date
              | some cur => if cur < expiration_date then some expiration_date else acc
            | Except.error _ => acc
          | none => acc) acc
        = (l.filterMap extractExp).foldl stepMax acc := by
  induction l with
  | nil => intro acc; rfl
  | cons a t ih =>
    intro acc
    rw [List.foldl_cons, List.filterMap_cons]
    cases he : a.expiration with
    | none => simp only [extractExp, he]; exact ih acc
    | some s =>
      cases hp : parse_iso8601 s with
      | ok v =>
        simp only [extractExp, he, hp, List.foldl_cons]
        rw [ih]
        rfl
      | error e => simp only [extractExp, he, hp]; exact ih acc

/-- The resolver as a maximum over the parsed expirations. -/
lemma get_expiration_eq (r : OTXRecord) :
    get_expiration r = ((parsedExpirations r).foldl stepMax none).map format_system_time := by
  unfold get_expiration parsedExpirations
  rw [get_expiration_fold]

/-- A `stepMax` fold started from a value computes the running maximum. -/
lemma foldl_stepMax_some (l : List Nat) :
    ∀ c : Nat, l.foldl stepMax (some c) = some (l.foldl Nat.max c) := by
  induction l with
  | nil => intro c; rfl
  | cons a t ih =>
    intro c
    rw [List.foldl_cons, List.foldl_cons]
    have hstep : stepMax (some c) a = some (Nat.max c a) := by
      unfold stepMax
      by_cases h : c < a
      · simp [h, Nat.max_eq_right (Nat.le_of_lt h)]
      · simp [h, Nat.max_eq_left (Nat.le_of_not_lt h)]
    rw [hstep, ih]

/-- A `stepMax` fold over a non-empty list computes the list maximum. -/
lemma foldl_stepMax_none (l : List Nat) (h : l ≠ []) :
    l.foldl stepMax none = some (l.foldl Nat.max 0) := by
  cases l with
  | nil => exact absurd rfl h
  | cons a t =>
    rw [List.foldl_cons, List.foldl_cons]
    have h0 : stepMax none a = some a := rfl
    rw [h0, foldl_stepMax_some]
    have : Nat.max 0 a = a := Nat.zero_max a
    rw [this]

/-- The formatter never returns the empty string. -/
lemma format_system_time_ne_empty (t : Nat) : format_system_time t ≠ "" := by
  intro h
  have hd : (format_system_time t).data = ("" : String).data := congrArg String.data h
  unfold format_system_time at hd
  simp [List.append_eq_nil] at hd

/-- Claim C5: expiration_date is empty exactly when no indicator has a
present, parseable expiration; otherwise it is the formatted maximum parsed
instant, with absent and unparseable expirations silently skipped. -/
theorem c5_expiration_resolution : ∀ r : OTXRecord,
    ((enrich r).expiration_date = "" ↔ parsedExpirations r = []) ∧
    (parsedExpirations r ≠ [] →
      (enrich r).expiration_date = format_system_time (maxExpiration r)) := by
  intro r
  have hed : (enrich r).expiration_date = (get_expiration r).getD "" := rfl
  rw [hed, get_expiration_eq]
  by_cases h : parsedExpirations r = []
  · simp [h]
  · rw [foldl_stepMax_none _ h]
    have hmax : maxExpiration r = (parsedExpirations r).foldl Nat.max 0 := rfl
    refine ⟨?_, fun _ => by rw [hmax]; rfl⟩
    simp only [Option.map_some', Option.getD_some]
    constructor
    · intro hc
      exact absurd hc (format_system_time_ne_empty _)
    · intro hc
      exact absurd hc h

/-- Witness for C5 at a record mixing parseable, absent and unparseable
expirations. -/
theorem c5_witness :
    parsedExpirations expRecord ≠ [] ∧
    (enrich expRecord).expiration_date = format_system_time (maxExpiration expRecord) :=
  ⟨by decide, (c5_expiration_resolution expRecord).2 (by decide)⟩

/-! Lemmas about the fixed-unit date parser and formatter. -/

/-- Splitting a delimiter-free prefix followed by a delimiter yields that
prefix as the first segment. -/
lemma splitChars_sep (xs : List Char) (d : Char) (ys : List Char)
    (hd : isDelim d = true) (hx : ∀ c ∈ xs, isDelim c = false) :
    splitChars (xs ++ d :: ys) = xs :: splitChars ys := by
  induction xs with
  | nil => rw [List.nil_append, splitChars, if_pos hd]
  | cons c t ih =>
    have hc : isDelim c = false := hx c (by simp)
    have hc2 : ¬ (isDelim c = true) := by simp [hc]
    have ht : ∀ a ∈ t, isDelim a = false := fun a ha => hx a (by simp [ha])
    rw [List.cons_append, splitChars, if_neg hc2, ih ht]

/-- Splitting a delimiter-free list yields the single segment. -/
lemma splitChars_nodelim (xs : List Char) (hx : ∀ c ∈ xs, isDelim c = false) :
    splitChars xs = [xs] := by
  induction xs with
  | nil => rfl
  | cons c t ih =>
    have hc : isDelim c = false := hx c (by simp)
    have hc2 : ¬ (isDelim c = true) := by simp [hc]
    have ht : ∀ a ∈ t, isDelim a = false := fun a ha => hx a (by simp [ha])
    rw [splitChars, if_neg hc2, ih ht]

/-- Two-digit zero-padded renderings contain no delimiter character. -/
lemma padZeros2_nodelim : ∀ n, n < 100 → ∀ c ∈ padZeros 2 n, isDelim c = false := by
  decide

/-- Parsing a two-digit zero-padded rendering recovers the number. -/
lemma parseU64_padZeros2 : ∀ n, n < 100 → parseU64 (String.mk (padZeros 2 n)) = some n := by
  decide

/-- Every successfully parsed segment value is below 2^64. -/
lemma parseU64_lt (s : String) (v : Nat) (h : parseU64 s = some v) : v < U64M := by
  unfold parseU64 at h
  split at h
  · simp at h
  · split at h
    · split at h
      · rename_i hlt
        rw [Option.some.injEq] at h
        subst h
        unfold U64M
        exact hlt
      · simp at h
    · simp at h

/-- Wrapping subtraction is exact subtraction on in-range operands. -/
lemma wsub_exact (a b : Nat) (hb : b ≤ a) (ha : a < U64M) : wsub a b = a - b := by
  unfold U64M at ha
  unfold wsub U64M
  omega

/-- On in-range fields with year at least 1970, month and day at least 1, the
wrapped instant computation equals the plain natural-number formula reduced
once modulo 2^64: in particular none of the subtractions wraps. -/
lemma instantSecs_exact (y mo d hr mi se : Nat)
    (hy : 1970 ≤ y) (hyU : y < U64M) (hmo : 1 ≤ mo) (hmoU : mo < U64M)
    (hd : 1 ≤ d) (hdU : d < U64M) :
    instantSecs y mo d hr mi se =
      ((y - 1970) * 31536000 + (mo - 1) * 2592000 + (d - 1) * 86400 +
        hr * 3600 + mi * 60 + se) % U64M := by
  unfold instantSecs
  rw [wsub_exact y 1970 hy hyU, wsub_exact mo 1 hmo hmoU, wsub_exact d 1 hd hdU]
  unfold wadd wmul
  simp only [Nat.mod_add_mod, Nat.add_mod_mod]

/-- Evaluation of the parser on an input whose split is known and whose first
six segments parse. -/
lemma parse_iso8601_eval (s : String) (a b c d e f : String) (rest : List String)
    (hsplit : splitDelims s = a :: b :: c :: d :: e :: f :: rest)
    (y mo dd hr mi se : Nat)
    (ha : parseU64 a = some y) (hb : parseU64 b = some mo) (hc : parseU64 c = some dd)
    (hdp : parseU64 d = some hr) (he : parseU64 e = some mi) (hf : parseU64 f = some se) :
    parse_iso8601 s = Except.ok (instantSecs y mo dd hr mi se) := by
  unfold parse_iso8601
  simp only [hsplit]
  have hlen : ¬ (a :: b :: c :: d :: e :: f :: rest).length < 6 := by
    simp only [List.length_cons]
    omega
  rw [if_neg hlen]
  simp only [List.getD_cons_zero, List.getD_cons_succ]
  rw [ha, hb, hc, hdp, he, hf]

/-- Counterexample to claim C3: formatting instant 31536000 and re-parsing
yields 31968000, not the original instant, because the formatter's day field
is computed from the total seconds modulo 2592000 instead of from the
within-year remainder. -/
theorem c3_counterexample :
    parse_iso8601 (format_system_time 31536000) = Except.ok 31968000 ∧
    (31968000 : Nat) ≠ 31536000 :=
  ⟨rfl, by decide⟩

/-- Claim C3 as amended: for every instant below one fixed-unit year
(31536000 seconds) formatting and then parsing yields the instant again. -/
theorem c3_amended_roundtrip (t : Nat) (ht : t < 31536000) :
    parse_iso8601 (format_system_time t) = Except.ok t := by
  have hyear : fmtYear t = 1970 := by unfold fmtYear; omega
  have hmo : fmtMonth t < 100 := by unfold fmtMonth; omega
  have hdy : fmtDay t < 100 := by unfold fmtDay; omega
  have hhr : fmtHour t < 100 := by unfold fmtHour; omega
  have hmi : fmtMinute t < 100 := by unfold fmtMinute; omega
  have hse : fmtSecond t < 100 := by unfold fmtSecond; omega
  have hdata : (format_system_time t).data =
      padZeros 4 1970 ++ ('-' :: (padZeros 2 (fmtMonth t) ++ ('-' :: (padZeros 2 (fmtDay t) ++
      ('T' :: (padZeros 2 (fmtHour t) ++ (':' :: (padZeros 2 (fmtMinute t) ++
      (':' :: padZeros 2 (fmtSecond t)))))))))) := by
    unfold format_system_time
    rw [hyear]
  have hx4 : ∀ c ∈ padZeros 4 1970, isDelim c = false := by decide
  have hdash : isDelim '-' = true := by decide
  have hsepT : isDelim 'T' = true := by decide
  have hcolon : isDelim ':' = true := by decide
  have hsplit : splitDelims (format_system_time t) =
      [String.mk (padZeros 4 1970), String.mk (padZeros 2 (fmtMonth t)),
       String.mk (padZeros 2 (fmtDay t)), String.mk (padZeros 2 (fmtHour t)),
       String.mk (padZeros 2 (fmtMinute t)), String.mk (padZeros 2 (fmtSecond t))] := by
    unfold splitDelims
    rw [hdata]
    rw [splitChars_sep _ _ _ hdash hx4,
        splitChars_sep _ _ _ hdash (padZeros2_nodelim _ hmo),
        splitChars_sep _ _ _ hsepT (padZeros2_nodelim _ hdy),
        splitChars_sep _ _ _ hcolon (padZeros2_nodelim _ hhr),
        splitChars_sep _ _ _ hcolon (padZeros2_nodelim _ hmi),
        splitChars_nodelim _ (padZeros2_nodelim _ hse)]
    rfl
  have hp4 : parseU64 (String.mk (padZeros 4 1970)) = some 1970 := by decide
  rw [parse_iso8601_eval (format_system_time t) _ _ _ _ _ _ [] hsplit 1970 (fmtMonth t)
      (fmtDay t) (fmtHour t) (fmtMinute t) (fmtSecond t) hp4
      (parseU64_padZeros2 _ hmo) (parseU64_padZeros2 _ hdy) (parseU64_padZeros2 _ hhr)
      (parseU64_padZeros2 _ hmi) (parseU64_padZeros2 _ hse)]
  rw [instantSecs_exact 1970 (fmtMonth t) (fmtDay t) (fmtHour t) (fmtMinute t) (fmtSecond t)
      (by omega) (by unfold U64M; omega) (by unfold fmtMonth; omega) (by unfold U64M; omega)
      (by unfold fmtDay; omega) (by unfold U64M; omega)]
  have hval : ((1970 - 1970) * 31536000 + (fmtMonth t - 1) * 2592000 +
      (fmtDay t - 1) * 86400 + fmtHour t * 3600 + fmtMinute t * 60 + fmtSecond t) % U64M
      = t := by
    unfold fmtMonth fmtDay fmtHour fmtMinute fmtSecond U64M
    omega
  rw [hval]

/-- Witness for the amended C3 at a concrete instant inside the first
fixed-unit year. -/
theorem c3_witness :
    12345 < 31536000 ∧ parse_iso8601 (format_system_time 12345) = Except.ok 12345 :=
  ⟨by decide, c3_amended_roundtrip 12345 (by decide)⟩

/-- Claim C8: when the input splits into at least six segments whose first
six parse as unsigned integers with year at least 1970 and month and day at
least 1, the parser returns Ok of the exact (non-wrapping) fixed-unit
formula; the subtractions cannot wrap under these lower bounds. -/
theorem c8_parse_safety (s : String) (seg0 seg1 seg2 seg3 seg4 seg5 : String)
    (rest : List String) (y mo d hr mi se : Nat)
    (hsplit : splitDelims s = seg0 :: seg1 :: seg2 :: seg3 :: seg4 :: seg5 :: rest)
    (h0 : parseU64 seg0 = some y) (h1 : parseU64 seg1 = some mo)
    (h2 : parseU64 seg2 = some d) (h3 : parseU64 seg3 = some hr)
    (h4 : parseU64 seg4 = some mi) (h5 : parseU64 seg5 = some se)
    (hy : 1970 ≤ y) (hmo : 1 ≤ mo) (hdd : 1 ≤ d) :
    parse_iso8601 s = Except.ok
      (((y - 1970) * 31536000 + (mo - 1) * 2592000 + (d - 1) * 86400 +
        hr * 3600 + mi * 60 + se) % U64M) := by
  rw [parse_iso8601_eval s seg0 seg1 seg2 seg3 seg4 seg5 rest hsplit y mo d hr mi se
      h0 h1 h2 h3 h4 h5]
  rw [instantSecs_exact y mo d hr mi se hy (parseU64_lt seg0 y h0) hmo
      (parseU64_lt seg1 mo h1) hdd (parseU64_lt seg2 d h2)]

/-- Witness for C8 at the concrete date string 2024-06-15T10:30:00. -/
theorem c8_witness :
    parse_iso8601 "2024-06-15T10:30:00" = Except.ok
      (((2024 - 1970) * 31536000 + (6 - 1) * 2592000 + (15 - 1) * 86400 +
        10 * 3600 + 30 * 60 + 0) % U64M) :=
  c8_parse_safety "2024-06-15T10:30:00" "2024" "06" "15" "10" "30" "00" [] 2024 6 15 10 30 0
    rfl rfl rfl rfl rfl rfl rfl (by decide) (by decide) (by decide)
